import Mathlib

/-!
Shallow embedding of the climate-control decision-and-actuation core of this
repository: `climate_control/actuators.py` (Actuator, ActuatorController) and
`climate_control/control_engine.py` (HybridControlEngine), with the concrete
configuration values of `climate_control/settings.py`.

Modelling conventions:
* Python floats are modelled as rationals (`ℚ`).
* `time.time()` is passed explicitly as a `now : ℚ` argument; the successive
  clock reads inside one Python method body are modelled as a single instant.
* Human-readable strings (the actuator `name`, a decision's `reason` and the
  assessment labels, log messages) carry no control flow and are elided; the
  urgency component of `assess_temperature` / `assess_humidity` is kept.
* Python truthiness of `self.runtime_start` (an `Optional[float]`) is modelled
  faithfully: `None` and `0` are falsy, any other timestamp is truthy.
* Hardware I/O is modelled by explicit inputs: a water-level sensor read is an
  `Option Bool` (`none` models the `GPIO.input` call raising, `some b` a
  successful read of the pin, `b = true` meaning HIGH = adequate level), and a
  physical output write carries a `writeOk : Bool` (`false` models the
  `GPIO.output` call raising, which marks the actuator FAULT).
-/

/-! ### Actuator (`climate_control/actuators.py`, class `Actuator`) -/

/-- Source `ActuatorState` enum of `actuators.py`. -/
inductive ActuatorState where
  | OFF
  | ON
  | FAULT
  deriving DecidableEq, Repr

/-- One actuator with its timing configuration and mutable state
(`Actuator.__init__`).  The `name` string is elided. -/
structure Actuator where
  gpio_pin : ℕ
  min_cycle_time : ℚ
  max_runtime : ℚ
  active_low : Bool
  state : ActuatorState
  last_state_change : ℚ
  runtime_start : Option ℚ
  total_runtime : ℚ
  cycle_count : ℕ
  deriving DecidableEq, Repr

/-- Python truthiness of the `runtime_start` field (`if self.runtime_start:`):
`None` and `0` are falsy. -/
def runtime_start_truthy (o : Option ℚ) : Bool :=
  match o with
  | none => false
  | some t => t ≠ 0

/-- Source `Actuator.can_change_state`: true iff the elapsed time since the last
state change is at least `min_cycle_time`. -/
def can_change_state (a : Actuator) (now : ℚ) : Bool :=
  now - a.last_state_change ≥ a.min_cycle_time

/-- Source `Actuator.is_runtime_exceeded`: true iff the actuator is ON (with a truthy
`runtime_start`) and has been running for at least `max_runtime`. -/
def is_runtime_exceeded (a : Actuator) (now : ℚ) : Bool :=
  match a.runtime_start with
  | some t => a.state = ActuatorState.ON ∧ t ≠ 0 ∧ now - t ≥ a.max_runtime
  | none => false

/-- Source `Actuator.turn_on`: no-op success when already ON; refused (no state
change) when the cycle-time gate fails; otherwise transitions to ON. -/
def turn_on (a : Actuator) (now : ℚ) : Bool × Actuator :=
  if a.state = ActuatorState.ON then
    (true, a)
  else if ¬ can_change_state a now then
    (false, a)
  else
    (true, { a with
      state := ActuatorState.ON
      last_state_change := now
      runtime_start := some now
      cycle_count := a.cycle_count + 1 })

/-- Source `Actuator.turn_off`: no-op success when already OFF; otherwise accumulates
the elapsed runtime (when ON with a truthy `runtime_start`) and transitions to
OFF.  Always returns true. -/
def turn_off (a : Actuator) (now : ℚ) : Bool × Actuator :=
  if a.state = ActuatorState.OFF then
    (true, a)
  else
    let a1 :=
      match a.runtime_start with
      | some t =>
          if a.state = ActuatorState.ON ∧ t ≠ 0 then
            { a with total_runtime := a.total_runtime + (now - t) }
          else a
      | none => a
    (true, { a1 with
      state := ActuatorState.OFF
      last_state_change := now
      runtime_start := none })

/-- Source `Actuator.emergency_stop`: unconditionally forces OFF and clears
`runtime_start`; does not touch `last_state_change` or `total_runtime`. -/
def emergency_stop (a : Actuator) : Actuator :=
  { a with state := ActuatorState.OFF, runtime_start := none }

/-- The FAULT transition taken in `ActuatorController._set_gpio_state` when
the physical output write raises: only the `state` field is set to FAULT. -/
def mark_fault (a : Actuator) : Actuator :=
  { a with state := ActuatorState.FAULT }

/-- An operation applied to a single actuator: the two normal command paths,
the emergency stop, and the FAULT transition on an output-write failure. -/
inductive ActOp where
  | op_turn_on (now : ℚ)
  | op_turn_off (now : ℚ)
  | op_emergency_stop
  | op_fault
  deriving DecidableEq, Repr

/-- Apply one `ActOp` to an actuator (state part only). -/
def apply_op (a : Actuator) : ActOp → Actuator
  | ActOp.op_turn_on now => (turn_on a now).2
  | ActOp.op_turn_off now => (turn_off a now).2
  | ActOp.op_emergency_stop => emergency_stop a
  | ActOp.op_fault => mark_fault a

/-- Apply a sequence of operations, left to right. -/
def run_ops (a : Actuator) (ops : List ActOp) : Actuator :=
  ops.foldl apply_op a

/-- The documented actuator invariant: `runtime_start` is non-null iff the
state is ON. -/
def runtime_inv (a : Actuator) : Prop :=
  a.runtime_start ≠ none ↔ a.state = ActuatorState.ON

instance (a : Actuator) : Decidable (runtime_inv a) := by
  unfold runtime_inv
  infer_instance

/-- A freshly initialized pump actuator (`Actuator.__init__` with the default
parameters of `_setup_actuators`; `last_state_change = 0` as in the source). -/
def pump_init : Actuator :=
  { gpio_pin := 17
    min_cycle_time := 10
    max_runtime := 600
    active_low := true
    state := ActuatorState.OFF
    last_state_change := 0
    runtime_start := none
    total_runtime := 0
    cycle_count := 0 }

/-- An actuator sitting in the FAULT state after an output-write failure. -/
def faulted_actuator : Actuator :=
  { pump_init with state := ActuatorState.FAULT, cycle_count := 1 }

/-! ### ActuatorController (`climate_control/actuators.py`) -/

/-- Selector for the three actuators owned by the controller (the keys of the
`self.actuators` dict, in insertion order pump, chiller, dehumidifier). -/
inductive ActId where
  | pump
  | chiller
  | dehumidifier
  deriving DecidableEq, Repr

/-- Source `ActuatorController` state: the three actuators, the cached
`water_level_ok` flag, `emergency_mode`, the `gpio_initialized` flag and the
`enable_water_level_check` safety setting, plus the physical pin level last
written for each actuator (`true` = HIGH). -/
structure Controller where
  pump : Actuator
  chiller : Actuator
  dehumidifier : Actuator
  water_level_ok : Bool
  emergency_mode : Bool
  gpio_initialized : Bool
  enable_water_level_check : Bool
  pump_pin : Bool
  chiller_pin : Bool
  dehumidifier_pin : Bool
  deriving DecidableEq, Repr

/-- Read one actuator of the controller by id. -/
def Controller.getAct (c : Controller) : ActId → Actuator
  | ActId.pump => c.pump
  | ActId.chiller => c.chiller
  | ActId.dehumidifier => c.dehumidifier

/-- Replace one actuator of the controller by id. -/
def Controller.setAct (c : Controller) : ActId → Actuator → Controller
  | ActId.pump, a => { c with pump := a }
  | ActId.chiller, a => { c with chiller := a }
  | ActId.dehumidifier, a => { c with dehumidifier := a }

/-- Write one physical pin level of the controller by id. -/
def Controller.setPin (c : Controller) : ActId → Bool → Controller
  | ActId.pump, v => { c with pump_pin := v }
  | ActId.chiller, v => { c with chiller_pin := v }
  | ActId.dehumidifier, v => { c with dehumidifier_pin := v }

/-- Source `ActuatorController._set_gpio_state`: no-op in simulation mode; otherwise
computes the pin level from the requested state and the active-low polarity
and writes it; a write failure (`writeOk = false`) marks the actuator FAULT
without changing the pin. -/
def set_gpio_state (c : Controller) (id : ActId) (state : Bool) (writeOk : Bool) :
    Controller :=
  if ¬ c.gpio_initialized then
    c
  else
    let a := c.getAct id
    let gpio_value : Bool := ¬ ((state ∧ a.active_low) ∨ (¬ state ∧ ¬ a.active_low))
    if writeOk then
      c.setPin id gpio_value
    else
      c.setAct id (mark_fault a)

/-- Source `ActuatorController.check_water_level`: returns true in simulation mode or
when the check is disabled; otherwise reads the sensor pin (`some level`
caches the fresh level and returns it; `none`, modelling the read raising,
returns false without touching the cache). -/
def check_water_level (c : Controller) (sensor : Option Bool) : Bool × Controller :=
  if ¬ c.gpio_initialized then
    (true, c)
  else if ¬ c.enable_water_level_check then
    (true, c)
  else
    match sensor with
    | some level => (level, { c with water_level_ok := level })
    | none => (false, c)

/-- Source `ActuatorController.set_pump`: an ON command first re-reads the water
level and refuses (returning false, actuator untouched) when the check fails;
otherwise delegates to `turn_on`/`turn_off` and mirrors a successful command
into the physical output. -/
def set_pump (c : Controller) (state : Bool) (sensor : Option Bool)
    (writeOk : Bool) (now : ℚ) : Bool × Controller :=
  if state then
    let r := check_water_level c sensor
    if ¬ r.1 then
      (false, r.2)
    else
      let t := turn_on r.2.pump now
      let c2 := { r.2 with pump := t.2 }
      if t.1 then (true, set_gpio_state c2 ActId.pump true writeOk) else (false, c2)
  else
    let t := turn_off c.pump now
    let c2 := { c with pump := t.2 }
    if t.1 then (true, set_gpio_state c2 ActId.pump false writeOk) else (false, c2)

/-- Source `ActuatorController.set_chiller`: delegates to the actuator with no extra
interlock. -/
def set_chiller (c : Controller) (state : Bool) (writeOk : Bool) (now : ℚ) :
    Bool × Controller :=
  if state then
    let t := turn_on c.chiller now
    let c2 := { c with chiller := t.2 }
    if t.1 then (true, set_gpio_state c2 ActId.chiller true writeOk) else (false, c2)
  else
    let t := turn_off c.chiller now
    let c2 := { c with chiller := t.2 }
    if t.1 then (true, set_gpio_state c2 ActId.chiller false writeOk) else (false, c2)

/-- Source `ActuatorController.set_dehumidifier`: delegates to the actuator with no
extra interlock. -/
def set_dehumidifier (c : Controller) (state : Bool) (writeOk : Bool) (now : ℚ) :
    Bool × Controller :=
  if state then
    let t := turn_on c.dehumidifier now
    let c2 := { c with dehumidifier := t.2 }
    if t.1 then (true, set_gpio_state c2 ActId.dehumidifier true writeOk) else (false, c2)
  else
    let t := turn_off c.dehumidifier now
    let c2 := { c with dehumidifier := t.2 }
    if t.1 then (true, set_gpio_state c2 ActId.dehumidifier false writeOk) else (false, c2)

/-- Source `ActuatorController.check_safety`: walks the actuators in dict order
forcing OFF (through the normal `set_…(False)` paths) each one whose runtime
is exceeded, then re-reads the water level and forces the pump OFF when the
level is low while the pump is ON; `all_ok` is cleared by every exceeded
runtime and by a failing water check. -/
def check_safety (c : Controller) (sensor : Option Bool) (writeOk : Bool) (now : ℚ) :
    Bool × Controller :=
  let c1 :=
    if is_runtime_exceeded c.pump now then (set_pump c false sensor writeOk now).2
    else c
  let c2 :=
    if is_runtime_exceeded c1.chiller now then (set_chiller c1 false writeOk now).2
    else c1
  let c3 :=
    if is_runtime_exceeded c2.dehumidifier now then
      (set_dehumidifier c2 false writeOk now).2
    else c2
  let all_ok : Bool :=
    not (is_runtime_exceeded c.pump now) &&
      (not (is_runtime_exceeded c1.chiller now) &&
        not (is_runtime_exceeded c2.dehumidifier now))
  let w := check_water_level c3 sensor
  if ¬ w.1 then
    let c5 :=
      if w.2.pump.state = ActuatorState.ON then
        (set_pump w.2 false sensor writeOk now).2
      else w.2
    (false, c5)
  else
    (all_ok, w.2)

/-- Source `ActuatorController.emergency_shutdown`: sets `emergency_mode` and
emergency-stops every actuator, driving every physical output OFF. -/
def emergency_shutdown (c : Controller) (writeOk : Bool) : Controller :=
  let c1 := { c with emergency_mode := true }
  let c2 := set_gpio_state (c1.setAct ActId.pump (emergency_stop c1.pump))
    ActId.pump false writeOk
  let c3 := set_gpio_state (c2.setAct ActId.chiller (emergency_stop c2.chiller))
    ActId.chiller false writeOk
  set_gpio_state (c3.setAct ActId.dehumidifier (emergency_stop c3.dehumidifier))
    ActId.dehumidifier false writeOk

/-- A controller in live (GPIO-initialized) mode with the default safety
configuration and all actuators freshly initialized
(`ActuatorController.__init__` via `_setup_actuators`). -/
def controller_init : Controller :=
  { pump := pump_init
    chiller := { pump_init with gpio_pin := 27, max_runtime := 1800 }
    dehumidifier := { pump_init with gpio_pin := 22, max_runtime := 1200 }
    water_level_ok := true
    emergency_mode := false
    gpio_initialized := true
    enable_water_level_check := true
    pump_pin := true
    chiller_pin := true
    dehumidifier_pin := true }

/-! ### HybridControlEngine (`climate_control/control_engine.py`) -/

/-- Source `CoolingMode` enum. -/
inductive CoolingMode where
  | IDLE
  | EVAPORATIVE
  | CHILLER
  | DEHUMIDIFY
  | COOL_AND_DEHUMIDIFY
  | EMERGENCY
  deriving DecidableEq, Repr

/-- Source `ControlDecision`: mode, the three boolean actuator targets, priority and
creation timestamp.  The `reason` string is elided. -/
structure ControlDecision where
  mode : CoolingMode
  pump : Bool
  chiller : Bool
  dehumidifier : Bool
  priority : ℕ
  timestamp : ℚ
  deriving DecidableEq, Repr

/-- Source `SensorReading`: one timestamped sample. -/
structure SensorReading where
  temperature : ℚ
  humidity : ℚ
  timestamp : ℚ
  deriving DecidableEq, Repr

/-- Source `HybridControlEngine` state: the setpoints and tunables resolved in
`__init__`, the three bounded histories, and the runtime/statistics state.
The config fields `priority_temperature` / `priority_humidity` /
`priority_energy` are kept although the weighted scores computed from them in
`make_decision` are dead code (never read afterwards). -/
structure Engine where
  temp_target : ℚ
  temp_min : ℚ
  temp_max : ℚ
  humidity_target : ℚ
  humidity_min : ℚ
  humidity_max : ℚ
  temp_hysteresis : ℚ
  humidity_hysteresis : ℚ
  temp_rate_warning : ℚ
  humidity_rate_warning : ℚ
  prediction_window : ℚ
  history_samples : ℕ
  priority_temperature : ℕ
  priority_humidity : ℕ
  priority_energy : ℕ
  spray_cooldown : ℚ
  emergency_shutdown_temp : ℚ
  temp_history : List ℚ
  humidity_history : List ℚ
  reading_history : List SensorReading
  current_mode : CoolingMode
  last_decision : Option ControlDecision
  last_mode_change : ℚ
  spray_last_activated : ℚ
  decisions_made : ℕ
  mode_durations : CoolingMode → ℚ

/-- Append to a `deque(maxlen=cap)`: the oldest entries are evicted from the
left once the capacity is exceeded. -/
def push_bounded {α : Type} (cap : ℕ) (l : List α) (x : α) : List α :=
  let l2 := l ++ [x]
  if l2.length > cap then l2.drop (l2.length - cap) else l2

/-- Source `HybridControlEngine.add_reading`: appends the sample to the three
histories in lockstep. -/
def add_reading (e : Engine) (temperature humidity now : ℚ) : Engine :=
  { e with
    reading_history :=
      push_bounded e.history_samples e.reading_history
        { temperature := temperature, humidity := humidity, timestamp := now }
    temp_history := push_bounded e.history_samples e.temp_history temperature
    humidity_history := push_bounded e.history_samples e.humidity_history humidity }

/-- Maximum of a list of rationals (Python `max` on a non-empty list;
`0` on the empty list, which the caller never hits). -/
def list_max : List ℚ → ℚ
  | [] => 0
  | x :: xs => xs.foldl max x

/-- Minimum of a list of rationals (Python `min` on a non-empty list). -/
def list_min : List ℚ → ℚ
  | [] => 0
  | x :: xs => xs.foldl min x

/-- Source `HybridControlEngine.calculate_rate_of_change`.  The Python loop walks
`reversed(self.reading_history)` pairing index `i` with `values[-(i+1)]` and
stops at the first sample older than the window; when the two deques have
equal length (which `add_reading` guarantees) this is exactly a `takeWhile`
over the zip of the two reversed lists.  `vals[-1] - vals[0]` as written in
the source is the oldest collected value minus the newest one. -/
def calculate_rate_of_change (e : Engine) (values : List ℚ)
    (time_window : ℚ) (now : ℚ) : Option ℚ :=
  if values.length < 2 then
    none
  else
    let recent :=
      ((e.reading_history.reverse.zip values.reverse).takeWhile
        (fun p => now - p.1.timestamp ≤ time_window)).map
        (fun p => (p.1.timestamp, p.2))
    if recent.length < 2 then
      none
    else
      let times := recent.map Prod.fst
      let vals := recent.map Prod.snd
      let time_range := list_max times - list_min times
      if time_range < 1 then
        none
      else
        let value_change := (vals.getLast?.getD 0) - (vals.head?.getD 0)
        let rate_per_second := value_change / time_range
        some (rate_per_second * 60)

/-- Source `HybridControlEngine.predict_future_value`. -/
def predict_future_value (current : ℚ) (rate : Option ℚ) (minutes_ahead : ℚ) : ℚ :=
  match rate with
  | none => current
  | some r => current + r * minutes_ahead

/-- Urgency component of `HybridControlEngine.assess_temperature` (the
assessment label string is elided). -/
def assess_temperature (e : Engine) (temperature : ℚ) (temp_rate : Option ℚ) : ℕ :=
  if temperature > e.temp_max + 2 then 10
  else if temperature > e.temp_max then 8
  else if temperature > e.temp_target + e.temp_hysteresis then 6
  else if temperature < e.temp_min then 9
  else if temperature < e.temp_target - e.temp_hysteresis then 3
  else
    match temp_rate with
    | some r =>
        if |r| > e.temp_rate_warning then
          let future_temp := predict_future_value temperature (some r) e.prediction_window
          if future_temp > e.temp_max then 7
          else if future_temp < e.temp_min then 4
          else 0
        else 0
    | none => 0

/-- Urgency component of `HybridControlEngine.assess_humidity`. -/
def assess_humidity (e : Engine) (humidity : ℚ) (humidity_rate : Option ℚ) : ℕ :=
  if humidity > e.humidity_max + 5 then 9
  else if humidity > e.humidity_max then 7
  else if humidity > e.humidity_target + e.humidity_hysteresis then 5
  else if humidity < e.humidity_min then 8
  else if humidity < e.humidity_target - e.humidity_hysteresis then 4
  else
    match humidity_rate with
    | some r =>
        if |r| > e.humidity_rate_warning then
          let future_humidity := predict_future_value humidity (some r) e.prediction_window
          if future_humidity > e.humidity_max then 6
          else if future_humidity < e.humidity_min then 5
          else 0
        else 0
    | none => 0

/-- Source `HybridControlEngine.can_spray_now`. -/
def can_spray_now (e : Engine) (now : ℚ) : Bool :=
  now - e.spray_last_activated ≥ e.spray_cooldown

/-- Whether an optional rate is present and above the warning threshold
(the `temp_rate is not None and temp_rate > self.temp_rate_warning` test). -/
def rate_above (r? : Option ℚ) (w : ℚ) : Bool :=
  match r? with
  | some r => r > w
  | none => false

/-- Source `HybridControlEngine.make_decision`: adds the reading to history, computes
both rates and urgencies, then walks the ordered rule chain, returning at the
first match.  The weighted `temp_score` / `humidity_score` locals of the
source are dead code and elided.  The Python cases 3 and 5 nest a second `if`
whose failure falls through to exactly the next rule in the chain, so they
are modelled as single conjoined conditions. -/
def make_decision (e : Engine) (temperature humidity now : ℚ) :
    ControlDecision × Engine :=
  let e1 := add_reading e temperature humidity now
  let temp_rate := calculate_rate_of_change e1 e1.temp_history 60 now
  let humidity_rate := calculate_rate_of_change e1 e1.humidity_history 60 now
  let temp_urgency := assess_temperature e1 temperature temp_rate
  let humidity_urgency := assess_humidity e1 humidity humidity_rate
  let d : ControlDecision :=
    if temperature > e1.emergency_shutdown_temp then
      { mode := CoolingMode.EMERGENCY, pump := true, chiller := true,
        dehumidifier := false, priority := 10, timestamp := now }
    else if temp_urgency ≥ 8 then
      if humidity < e1.humidity_max then
        { mode := CoolingMode.CHILLER, pump := true, chiller := true,
          dehumidifier := false, priority := temp_urgency, timestamp := now }
      else
        { mode := CoolingMode.COOL_AND_DEHUMIDIFY, pump := false, chiller := true,
          dehumidifier := true, priority := max temp_urgency humidity_urgency,
          timestamp := now }
    else if humidity_urgency ≥ 7 then
      if temp_urgency > 3 then
        { mode := CoolingMode.COOL_AND_DEHUMIDIFY, pump := false, chiller := true,
          dehumidifier := true, priority := max temp_urgency humidity_urgency,
          timestamp := now }
      else
        { mode := CoolingMode.DEHUMIDIFY, pump := false, chiller := false,
          dehumidifier := true, priority := humidity_urgency, timestamp := now }
    else if temp_urgency ≥ 4 ∧ humidity < e1.humidity_max - 5 ∧
        can_spray_now e1 now then
      { mode := CoolingMode.EVAPORATIVE, pump := true, chiller := false,
        dehumidifier := false, priority := temp_urgency, timestamp := now }
    else if temp_urgency ≥ 3 ∧ humidity_urgency ≥ 3 then
      { mode := CoolingMode.CHILLER, pump := true, chiller := true,
        dehumidifier := false, priority := max temp_urgency humidity_urgency,
        timestamp := now }
    else if rate_above temp_rate e1.temp_rate_warning ∧
        humidity < e1.humidity_max - 3 then
      { mode := CoolingMode.EVAPORATIVE, pump := true, chiller := false,
        dehumidifier := false, priority := 5, timestamp := now }
    else
      { mode := CoolingMode.IDLE, pump := false, chiller := false,
        dehumidifier := false, priority := 0, timestamp := now }
  (d, e1)

/-- Source `HybridControlEngine.execute_decision`: on a mode change, accrues the open
interval into the outgoing mode's duration counter and resets the mode-change
timestamp; always updates `current_mode`, `last_decision`, the decision
counter, and resets the spray timer when the decision runs the pump. -/
def execute_decision (e : Engine) (d : ControlDecision) (now : ℚ) : Engine :=
  let e1 :=
    if e.current_mode ≠ d.mode then
      { e with
        mode_durations := fun m =>
          if m = e.current_mode then e.mode_durations m + (now - e.last_mode_change)
          else e.mode_durations m
        last_mode_change := now }
    else e
  { e1 with
    current_mode := d.mode
    last_decision := some d
    decisions_made := e1.decisions_made + 1
    spray_last_activated := if d.pump then now else e1.spray_last_activated }

/-- Fold a list of `(decision, time)` pairs through `execute_decision`. -/
def run_execs (e : Engine) (steps : List (ControlDecision × ℚ)) : Engine :=
  steps.foldl (fun acc s => execute_decision acc s.1 s.2) e

/-- The sum of the per-mode duration counters over all six modes
(`sum(self.mode_durations.values())` in `get_statistics`; the dict is
initialized with every `CoolingMode` key). -/
def sum_mode_durations (f : CoolingMode → ℚ) : ℚ :=
  f CoolingMode.IDLE + f CoolingMode.EVAPORATIVE + f CoolingMode.CHILLER +
    f CoolingMode.DEHUMIDIFY + f CoolingMode.COOL_AND_DEHUMIDIFY +
    f CoolingMode.EMERGENCY

/-- The engine as constructed by `HybridControlEngine.__init__` from the
mango configuration of `settings.get_config_dict()`, with construction time
`t0` (`self.last_mode_change = time.time()`; `spray_last_activated = 0`). -/
def mango_engine_at (t0 : ℚ) : Engine :=
  { temp_target := 11
    temp_min := 10
    temp_max := 61/5
    humidity_target := 175/2
    humidity_min := 85
    humidity_max := 90
    temp_hysteresis := 1/2
    humidity_hysteresis := 2
    temp_rate_warning := 1/2
    humidity_rate_warning := 2
    prediction_window := 5
    history_samples := 20
    priority_temperature := 10
    priority_humidity := 7
    priority_energy := 3
    spray_cooldown := 30
    emergency_shutdown_temp := 15
    temp_history := []
    humidity_history := []
    reading_history := []
    current_mode := CoolingMode.IDLE
    last_decision := none
    last_mode_change := t0
    spray_last_activated := 0
    decisions_made := 0
    mode_durations := fun _ => 0 }

/-- The mango engine constructed at time 0. -/
def mango_engine : Engine := mango_engine_at 0

/-- The pump actuator right after a successful `turn_on` at time 20. -/
def pump_on_20 : Actuator := (turn_on pump_init 20).2

/-- A live controller whose pump has been running since time 50 (so its
600 s runtime cap is exceeded at time 700). -/
def pump_overrun_controller : Controller :=
  { controller_init with
    pump := { pump_init with
      state := ActuatorState.ON
      last_state_change := 50
      runtime_start := some 50
      cycle_count := 1 } }

/-- An engine holding a strictly rising two-sample temperature series:
10 °C at time 0 and 20 °C at time 30. -/
def rising_engine : Engine :=
  { mango_engine with
    temp_history := [10, 20]
    humidity_history := [50, 50]
    reading_history :=
      [{ temperature := 10, humidity := 50, timestamp := 0 },
       { temperature := 20, humidity := 50, timestamp := 30 }] }

/-- A concrete chiller decision, used to exercise `execute_decision`. -/
def chill_decision : ControlDecision :=
  { mode := CoolingMode.CHILLER, pump := true, chiller := true,
    dehumidifier := false, priority := 8, timestamp := 10 }

/-- A concrete idle decision, used to exercise `execute_decision`. -/
def idle_decision : ControlDecision :=
  { mode := CoolingMode.IDLE, pump := false, chiller := false,
    dehumidifier := false, priority := 0, timestamp := 25 }

/-! ### Helper lemmas -/

theorem runtime_inv_turn_on (a : Actuator) (now : ℚ) (h : runtime_inv a) :
    runtime_inv (turn_on a now).2 := by
  unfold turn_on
  split_ifs <;> simp_all [runtime_inv]

theorem runtime_inv_turn_off (a : Actuator) (now : ℚ) (h : runtime_inv a) :
    runtime_inv (turn_off a now).2 := by
  unfold turn_off
  cases hrs : a.runtime_start <;> split_ifs <;> simp_all [runtime_inv]

theorem runtime_inv_emergency_stop (a : Actuator) :
    runtime_inv (emergency_stop a) := by
  simp [runtime_inv, emergency_stop]

/-! ### Claims -/

/-- C2: `turn_on` is a no-op returning true when the actuator is already ON;
otherwise, when the elapsed time since `last_state_change` is strictly below
`min_cycle_time` it returns false leaving every field unchanged, and when the
elapsed time is at least `min_cycle_time` it returns true, sets the state to
ON, stamps `runtime_start` and `last_state_change` with the current time, and
increments `cycle_count` by exactly one. -/
theorem turn_on_contract (a : Actuator) (now : ℚ) :
    (a.state = ActuatorState.ON → turn_on a now = (true, a)) ∧
    (a.state ≠ ActuatorState.ON →
      now - a.last_state_change < a.min_cycle_time →
      turn_on a now = (false, a)) ∧
    (a.state ≠ ActuatorState.ON →
      a.min_cycle_time ≤ now - a.last_state_change →
      turn_on a now =
        (true, { a with
          state := ActuatorState.ON
          last_state_change := now
          runtime_start := some now
          cycle_count := a.cycle_count + 1 })) := by
  refine ⟨fun h => ?_, fun h hlt => ?_, fun h hge => ?_⟩
  · simp [turn_on, h]
  · simp [turn_on, h, can_change_state, not_le.mpr hlt]
  · simp [turn_on, h, can_change_state, hge]

/-- C2 witness: the three cases of the contract at concrete inputs — a fresh
pump refused 5 s after initialization, switched on at 20 s, and a no-op
`turn_on` on the already-running pump. -/
theorem turn_on_contract_witness :
    turn_on pump_init 5 = (false, pump_init) ∧
    turn_on pump_init 20 =
      (true, { pump_init with
        state := ActuatorState.ON
        last_state_change := 20
        runtime_start := some 20
        cycle_count := pump_init.cycle_count + 1 }) ∧
    turn_on pump_on_20 25 = (true, pump_on_20) :=
  ⟨(turn_on_contract pump_init 5).2.1 (by decide) (by norm_num [pump_init]),
   (turn_on_contract pump_init 20).2.2 (by decide) (by norm_num [pump_init]),
   (turn_on_contract pump_on_20 25).1
     (by simp [pump_on_20, turn_on, can_change_state, pump_init]; norm_num)⟩

/-- C9 counterexample: a FAULT actuator does leave FAULT through the automatic
command path — `turn_on` at time 100 (cycle gate long passed) returns true and
puts it in the ON state, with no external reset involved. -/
theorem fault_left_by_turn_on :
    (turn_on faulted_actuator 100).1 = true ∧
    (turn_on faulted_actuator 100).2.state = ActuatorState.ON := by
  simp [turn_on, can_change_state, faulted_actuator, pump_init]
  norm_num

/-- C9 (amended): FAULT is not terminal under the automatic command paths:
`turn_off` on a FAULT actuator always succeeds and moves it to OFF, and
`turn_on` moves it to ON as soon as the cycle-time gate passes (it stays FAULT
only while the gate refuses the command). -/
theorem fault_not_terminal (a : Actuator) (now : ℚ)
    (hf : a.state = ActuatorState.FAULT) :
    ((turn_off a now).1 = true ∧ (turn_off a now).2.state = ActuatorState.OFF) ∧
    (can_change_state a now = true →
      (turn_on a now).1 = true ∧ (turn_on a now).2.state = ActuatorState.ON) ∧
    (can_change_state a now = false → turn_on a now = (false, a)) := by
  refine ⟨?_, fun hc => ?_, fun hc => ?_⟩
  · unfold turn_off
    cases hrs : a.runtime_start <;> split_ifs <;> simp_all
  · simp [turn_on, hf, hc]
  · simp [turn_on, hf, hc]

/-- C9 witness: the amended behavior at concrete inputs — the faulted actuator
is moved OFF by `turn_off`, moved ON by a gate-passing `turn_on`, and kept
(refused) by a gate-blocked `turn_on`. -/
theorem fault_not_terminal_witness :
    (turn_off faulted_actuator 3).2.state = ActuatorState.OFF ∧
    (turn_on faulted_actuator 200).2.state = ActuatorState.ON ∧
    turn_on faulted_actuator 5 = (false, faulted_actuator) :=
  ⟨(fault_not_terminal faulted_actuator 3 (by decide)).1.2,
   ((fault_not_terminal faulted_actuator 200 (by decide)).2.1
     (by norm_num [can_change_state, faulted_actuator, pump_init])).2,
   (fault_not_terminal faulted_actuator 5 (by decide)).2.2
     (by norm_num [can_change_state, faulted_actuator, pump_init])⟩

/-- C5 counterexample: the invariant `runtime_start ≠ none ↔ state = ON` is
not preserved by the FAULT transition taken on a physical output-write
failure: after a successful `turn_on` at time 100 followed by the fault
transition, the actuator has state FAULT with `runtime_start = some 100`. -/
theorem runtime_inv_broken_by_fault :
    ¬ runtime_inv (run_ops pump_init [ActOp.op_turn_on 100, ActOp.op_fault]) := by
  simp [runtime_inv, run_ops, apply_op, turn_on, mark_fault, can_change_state, pump_init]
  norm_num
  simp

/-- C5 (amended): for every actuator satisfying the invariant and every
sequence of `turn_on`, `turn_off` and `emergency_stop` operations (no FAULT
transition), `runtime_start` is non-null iff the state is ON after the whole
sequence; the FAULT transition preserves `runtime_start`, so a fault taken
while ON leaves `runtime_start` non-null with state FAULT, breaking the
equivalence (see the counterexample). -/
theorem runtime_inv_preserved (a : Actuator) (ops : List ActOp)
    (h0 : runtime_inv a) (hnf : ∀ op ∈ ops, op ≠ ActOp.op_fault) :
    runtime_inv (run_ops a ops) := by
  induction ops generalizing a with
  | nil => simpa [run_ops] using h0
  | cons op rest ih =>
      have hop : runtime_inv (apply_op a op) := by
        cases op with
        | op_turn_on now => exact runtime_inv_turn_on a now h0
        | op_turn_off now => exact runtime_inv_turn_off a now h0
        | op_emergency_stop => exact runtime_inv_emergency_stop a
        | op_fault => exact absurd rfl (hnf _ (List.mem_cons_self _ _))
      have hrest := ih (apply_op a op) hop (fun o ho => hnf o (List.mem_cons_of_mem _ ho))
      simpa [run_ops] using hrest

/-- C5 witness: the invariant after a concrete fault-free command sequence on
a fresh pump actuator. -/
theorem runtime_inv_preserved_witness :
    runtime_inv (run_ops pump_init
      [ActOp.op_turn_on 50, ActOp.op_turn_off 70, ActOp.op_emergency_stop]) :=
  runtime_inv_preserved pump_init _ (by decide) (by decide)

/-! ### Controller helper lemmas -/

@[simp] theorem ite_controller_pump (P : Prop) [Decidable P] (a b : Controller) :
    (if P then a else b).pump = if P then a.pump else b.pump := by
  split_ifs <;> rfl

@[simp] theorem ite_controller_chiller (P : Prop) [Decidable P] (a b : Controller) :
    (if P then a else b).chiller = if P then a.chiller else b.chiller := by
  split_ifs <;> rfl

@[simp] theorem ite_controller_dehumidifier (P : Prop) [Decidable P] (a b : Controller) :
    (if P then a else b).dehumidifier = if P then a.dehumidifier else b.dehumidifier := by
  split_ifs <;> rfl

@[simp] theorem ite_controller_gpio (P : Prop) [Decidable P] (a b : Controller) :
    (if P then a else b).gpio_initialized =
      if P then a.gpio_initialized else b.gpio_initialized := by
  split_ifs <;> rfl

@[simp] theorem ite_controller_enable (P : Prop) [Decidable P] (a b : Controller) :
    (if P then a else b).enable_water_level_check =
      if P then a.enable_water_level_check else b.enable_water_level_check := by
  split_ifs <;> rfl

theorem turn_off_fst (a : Actuator) (now : ℚ) : (turn_off a now).1 = true := by
  unfold turn_off
  cases a.runtime_start <;> split_ifs <;> rfl

theorem turn_off_state (a : Actuator) (now : ℚ) :
    (turn_off a now).2.state = ActuatorState.OFF := by
  unfold turn_off
  cases a.runtime_start <;> split_ifs <;> simp_all

@[simp] theorem set_gpio_true_pump (c : Controller) (id : ActId) (s : Bool) :
    (set_gpio_state c id s true).pump = c.pump := by
  cases id <;> simp [set_gpio_state, Controller.setPin, Controller.getAct] <;>
    split_ifs <;> rfl

@[simp] theorem set_gpio_true_chiller (c : Controller) (id : ActId) (s : Bool) :
    (set_gpio_state c id s true).chiller = c.chiller := by
  cases id <;> simp [set_gpio_state, Controller.setPin, Controller.getAct] <;>
    split_ifs <;> rfl

@[simp] theorem set_gpio_true_dehumidifier (c : Controller) (id : ActId) (s : Bool) :
    (set_gpio_state c id s true).dehumidifier = c.dehumidifier := by
  cases id <;> simp [set_gpio_state, Controller.setPin, Controller.getAct] <;>
    split_ifs <;> rfl

@[simp] theorem set_gpio_true_gpio (c : Controller) (id : ActId) (s : Bool) :
    (set_gpio_state c id s true).gpio_initialized = c.gpio_initialized := by
  cases id <;> simp [set_gpio_state, Controller.setPin, Controller.getAct] <;>
    split_ifs <;> rfl

@[simp] theorem set_gpio_true_enable (c : Controller) (id : ActId) (s : Bool) :
    (set_gpio_state c id s true).enable_water_level_check =
      c.enable_water_level_check := by
  cases id <;> simp [set_gpio_state, Controller.setPin, Controller.getAct] <;>
    split_ifs <;> rfl

@[simp] theorem set_pump_false_pump_state (c : Controller) (sensor : Option Bool)
    (now : ℚ) :
    (set_pump c false sensor true now).2.pump.state = ActuatorState.OFF := by
  simp [set_pump, turn_off_fst, turn_off_state]

@[simp] theorem set_pump_false_chiller (c : Controller) (sensor : Option Bool)
    (w : Bool) (now : ℚ) :
    (set_pump c false sensor w now).2.chiller = c.chiller := by
  rcases w with _ | _ <;>
    simp [set_pump, turn_off_fst, set_gpio_state, Controller.setPin,
      Controller.setAct, Controller.getAct, mark_fault] <;>
    split_ifs <;> rfl

@[simp] theorem set_pump_false_dehumidifier (c : Controller) (sensor : Option Bool)
    (w : Bool) (now : ℚ) :
    (set_pump c false sensor w now).2.dehumidifier = c.dehumidifier := by
  rcases w with _ | _ <;>
    simp [set_pump, turn_off_fst, set_gpio_state, Controller.setPin,
      Controller.setAct, Controller.getAct, mark_fault] <;>
    split_ifs <;> rfl

@[simp] theorem set_pump_false_gpio (c : Controller) (sensor : Option Bool)
    (w : Bool) (now : ℚ) :
    (set_pump c false sensor w now).2.gpio_initialized = c.gpio_initialized := by
  rcases w with _ | _ <;>
    simp [set_pump, turn_off_fst, set_gpio_state, Controller.setPin,
      Controller.setAct, Controller.getAct, mark_fault] <;>
    split_ifs <;> rfl

@[simp] theorem set_pump_false_enable (c : Controller) (sensor : Option Bool)
    (w : Bool) (now : ℚ) :
    (set_pump c false sensor w now).2.enable_water_level_check =
      c.enable_water_level_check := by
  rcases w with _ | _ <;>
    simp [set_pump, turn_off_fst, set_gpio_state, Controller.setPin,
      Controller.setAct, Controller.getAct, mark_fault] <;>
    split_ifs <;> rfl

@[simp] theorem set_chiller_false_chiller_state (c : Controller) (now : ℚ) :
    (set_chiller c false true now).2.chiller.state = ActuatorState.OFF := by
  simp [set_chiller, turn_off_fst, turn_off_state]

@[simp] theorem set_chiller_false_pump (c : Controller) (w : Bool) (now : ℚ) :
    (set_chiller c false w now).2.pump = c.pump := by
  rcases w with _ | _ <;>
    simp [set_chiller, turn_off_fst, set_gpio_state, Controller.setPin,
      Controller.setAct, Controller.getAct, mark_fault] <;>
    split_ifs <;> rfl

@[simp] theorem set_chiller_false_dehumidifier (c : Controller) (w : Bool) (now : ℚ) :
    (set_chiller c false w now).2.dehumidifier = c.dehumidifier := by
  rcases w with _ | _ <;>
    simp [set_chiller, turn_off_fst, set_gpio_state, Controller.setPin,
      Controller.setAct, Controller.getAct, mark_fault] <;>
    split_ifs <;> rfl

@[simp] theorem set_chiller_false_gpio (c : Controller) (w : Bool) (now : ℚ) :
    (set_chiller c false w now).2.gpio_initialized = c.gpio_initialized := by
  rcases w with _ | _ <;>
    simp [set_chiller, turn_off_fst, set_gpio_state, Controller.setPin,
      Controller.setAct, Controller.getAct, mark_fault] <;>
    split_ifs <;> rfl

@[simp] theorem set_chiller_false_enable (c : Controller) (w : Bool) (now : ℚ) :
    (set_chiller c false w now).2.enable_water_level_check =
      c.enable_water_level_check := by
  rcases w with _ | _ <;>
    simp [set_chiller, turn_off_fst, set_gpio_state, Controller.setPin,
      Controller.setAct, Controller.getAct, mark_fault] <;>
    split_ifs <;> rfl

@[simp] theorem set_dehumidifier_false_dehumidifier_state (c : Controller) (now : ℚ) :
    (set_dehumidifier c false true now).2.dehumidifier.state = ActuatorState.OFF := by
  simp [set_dehumidifier, turn_off_fst, turn_off_state]

@[simp] theorem set_dehumidifier_false_pump (c : Controller) (w : Bool) (now : ℚ) :
    (set_dehumidifier c false w now).2.pump = c.pump := by
  rcases w with _ | _ <;>
    simp [set_dehumidifier, turn_off_fst, set_gpio_state, Controller.setPin,
      Controller.setAct, Controller.getAct, mark_fault] <;>
    split_ifs <;> rfl

@[simp] theorem set_dehumidifier_false_chiller (c : Controller) (w : Bool) (now : ℚ) :
    (set_dehumidifier c false w now).2.chiller = c.chiller := by
  rcases w with _ | _ <;>
    simp [set_dehumidifier, turn_off_fst, set_gpio_state, Controller.setPin,
      Controller.setAct, Controller.getAct, mark_fault] <;>
    split_ifs <;> rfl

@[simp] theorem set_dehumidifier_false_gpio (c : Controller) (w : Bool) (now : ℚ) :
    (set_dehumidifier c false w now).2.gpio_initialized = c.gpio_initialized := by
  rcases w with _ | _ <;>
    simp [set_dehumidifier, turn_off_fst, set_gpio_state, Controller.setPin,
      Controller.setAct, Controller.getAct, mark_fault] <;>
    split_ifs <;> rfl

@[simp] theorem set_dehumidifier_false_enable (c : Controller) (w : Bool) (now : ℚ) :
    (set_dehumidifier c false w now).2.enable_water_level_check =
      c.enable_water_level_check := by
  rcases w with _ | _ <;>
    simp [set_dehumidifier, turn_off_fst, set_gpio_state, Controller.setPin,
      Controller.setAct, Controller.getAct, mark_fault] <;>
    split_ifs <;> rfl

@[simp] theorem check_water_level_snd_pump (c : Controller) (sensor : Option Bool) :
    (check_water_level c sensor).2.pump = c.pump := by
  cases sensor <;> simp [check_water_level] <;> split_ifs <;> rfl

@[simp] theorem check_water_level_snd_chiller (c : Controller) (sensor : Option Bool) :
    (check_water_level c sensor).2.chiller = c.chiller := by
  cases sensor <;> simp [check_water_level] <;> split_ifs <;> rfl

@[simp] theorem check_water_level_snd_dehumidifier (c : Controller)
    (sensor : Option Bool) :
    (check_water_level c sensor).2.dehumidifier = c.dehumidifier := by
  cases sensor <;> simp [check_water_level] <;> split_ifs <;> rfl

@[simp] theorem check_water_level_snd_gpio (c : Controller) (sensor : Option Bool) :
    (check_water_level c sensor).2.gpio_initialized = c.gpio_initialized := by
  cases sensor <;> simp [check_water_level] <;> split_ifs <;> rfl

@[simp] theorem check_water_level_snd_enable (c : Controller) (sensor : Option Bool) :
    (check_water_level c sensor).2.enable_water_level_check =
      c.enable_water_level_check := by
  cases sensor <;> simp [check_water_level] <;> split_ifs <;> rfl

theorem check_water_level_fst_congr (c c' : Controller) (sensor : Option Bool)
    (hg : c'.gpio_initialized = c.gpio_initialized)
    (he : c'.enable_water_level_check = c.enable_water_level_check) :
    (check_water_level c' sensor).1 = (check_water_level c sensor).1 := by
  cases sensor <;> simp only [check_water_level, hg, he] <;> split_ifs <;> rfl

/-- C3: whenever the fresh water-level check fails, `set_pump true` returns
false and leaves the pump actuator (all of its fields: state, runtime_start,
last_state_change, total_runtime, cycle_count) and the physical pump output
unchanged; and the refusal is decided by the fresh sensor read, independently
of the cached `water_level_ok` flag. -/
theorem set_pump_water_gate (c : Controller) (sensor : Option Bool)
    (writeOk : Bool) (now : ℚ)
    (hfresh : (check_water_level c sensor).1 = false) :
    (set_pump c true sensor writeOk now).1 = false ∧
    (set_pump c true sensor writeOk now).2.pump = c.pump ∧
    (set_pump c true sensor writeOk now).2.pump_pin = c.pump_pin ∧
    (∀ b : Bool,
      (set_pump { c with water_level_ok := b } true sensor writeOk now).1 = false) := by
  have hcache : ∀ b : Bool,
      (check_water_level { c with water_level_ok := b } sensor).1 =
        (check_water_level c sensor).1 := by
    intro b
    exact check_water_level_fst_congr c { c with water_level_ok := b } sensor rfl rfl
  have hpin : (check_water_level c sensor).2.pump_pin = c.pump_pin := by
    cases sensor <;> simp [check_water_level] <;> split_ifs <;> rfl
  refine ⟨?_, ?_, ?_, fun b => ?_⟩
  · simp [set_pump, hfresh]
  · simp [set_pump, hfresh]
  · simp [set_pump, hfresh, hpin]
  · simp [set_pump, hcache b, hfresh]

/-- C3 witness: the gate at a concrete input — a live controller whose cached
flag still says the level is fine, with the fresh sensor read reporting low
water. -/
theorem set_pump_water_gate_witness :
    (set_pump controller_init true (some false) true 100).1 = false ∧
    (set_pump controller_init true (some false) true 100).2.pump =
      controller_init.pump :=
  ⟨(set_pump_water_gate controller_init (some false) true 100 (by decide)).1,
   (set_pump_water_gate controller_init (some false) true 100 (by decide)).2.1⟩

@[simp] theorem check_water_level_fst_unfold (c : Controller) (sensor : Option Bool) :
    (check_water_level c sensor).1 =
      if ¬ c.gpio_initialized then true
      else if ¬ c.enable_water_level_check then true
      else sensor.getD false := by
  cases sensor <;> simp only [check_water_level] <;> split_ifs <;> rfl

/-- C4 counterexample: a live controller with every actuator OFF and the water
sensor reading low — no runtime is exceeded, the pump is not ON, the sweep
forces nothing OFF (all three actuators are returned unchanged), yet
`check_safety` returns false, refuting "returns true iff no intervention was
needed". -/
theorem check_safety_false_without_intervention :
    (check_safety controller_init (some false) true 100).1 = false ∧
    (check_safety controller_init (some false) true 100).2.pump =
      controller_init.pump ∧
    (check_safety controller_init (some false) true 100).2.chiller =
      controller_init.chiller ∧
    (check_safety controller_init (some false) true 100).2.dehumidifier =
      controller_init.dehumidifier ∧
    is_runtime_exceeded controller_init.pump 100 = false ∧
    is_runtime_exceeded controller_init.chiller 100 = false ∧
    is_runtime_exceeded controller_init.dehumidifier 100 = false ∧
    controller_init.pump.state ≠ ActuatorState.ON := by
  refine ⟨?_, ?_, ?_, ?_, ?_, ?_, ?_, ?_⟩ <;>
    simp [check_safety, check_water_level, is_runtime_exceeded,
      controller_init, pump_init]

/-- C4 (amended): `check_safety` forces OFF (through the normal `turn_off`
path) every actuator whose runtime is exceeded, and forces the pump OFF when
the water-level check fails while the pump is ON; but its return value is
true if and only if no runtime was exceeded and the water-level check passed,
so it can return false even when no intervention was needed (low water with
the pump already OFF — see the counterexample).  Physical writes are assumed
to succeed (`writeOk = true`). -/
theorem check_safety_spec (c : Controller) (sensor : Option Bool) (now : ℚ) :
    ((check_safety c sensor true now).1 = true ↔
      (is_runtime_exceeded c.pump now = false ∧
       is_runtime_exceeded c.chiller now = false ∧
       is_runtime_exceeded c.dehumidifier now = false ∧
       (check_water_level c sensor).1 = true)) ∧
    (is_runtime_exceeded c.pump now = true →
      (check_safety c sensor true now).2.pump.state = ActuatorState.OFF) ∧
    (is_runtime_exceeded c.chiller now = true →
      (check_safety c sensor true now).2.chiller.state = ActuatorState.OFF) ∧
    (is_runtime_exceeded c.dehumidifier now = true →
      (check_safety c sensor true now).2.dehumidifier.state = ActuatorState.OFF) ∧
    ((check_water_level c sensor).1 = false → c.pump.state = ActuatorState.ON →
      (check_safety c sensor true now).2.pump.state = ActuatorState.OFF) := by
  rcases Bool.eq_false_or_eq_true (is_runtime_exceeded c.pump now) with hp | hp <;>
    rcases Bool.eq_false_or_eq_true (is_runtime_exceeded c.chiller now) with hc | hc <;>
      rcases Bool.eq_false_or_eq_true
          (is_runtime_exceeded c.dehumidifier now) with hd | hd <;>
        rcases Bool.eq_false_or_eq_true c.gpio_initialized with hg | hg <;>
          rcases Bool.eq_false_or_eq_true
              c.enable_water_level_check with he | he <;>
            rcases Bool.eq_false_or_eq_true (sensor.getD false) with hs | hs <;>
              refine ⟨?_, ?_, ?_, ?_, ?_⟩ <;> intros <;>
                simp_all [check_safety]

/-- C4 witness: the amended contract at concrete inputs — the overrun pump is
forced OFF by the sweep, and a healthy controller's sweep returns true. -/
theorem check_safety_spec_witness :
    (check_safety pump_overrun_controller (some true) true 700).2.pump.state =
      ActuatorState.OFF ∧
    (check_safety controller_init (some true) true 100).1 = true :=
  ⟨(check_safety_spec pump_overrun_controller (some true) 700).2.1
    (by norm_num [is_runtime_exceeded, pump_overrun_controller, controller_init,
      pump_init]),
   ((check_safety_spec controller_init (some true) 100).1).mpr (by decide)⟩

/-- C1: for every temperature strictly above the configured emergency shutdown
temperature, every humidity and every engine state (hence any history),
`make_decision` returns the EMERGENCY decision with pump and chiller on,
dehumidifier off and priority 10 — no later rule of the chain is reached. -/
theorem make_decision_emergency (e : Engine) (temperature humidity now : ℚ)
    (h : temperature > e.emergency_shutdown_temp) :
    (make_decision e temperature humidity now).1 =
      { mode := CoolingMode.EMERGENCY, pump := true, chiller := true,
        dehumidifier := false, priority := 10, timestamp := now } := by
  simp [make_decision, add_reading, h]

/-- C1 witness: the emergency rule at 16 °C against the mango configuration
(emergency shutdown threshold 15 °C). -/
theorem make_decision_emergency_witness :
    (make_decision mango_engine 16 50 1000).1 =
      { mode := CoolingMode.EMERGENCY, pump := true, chiller := true,
        dehumidifier := false, priority := 10, timestamp := 1000 } :=
  make_decision_emergency mango_engine 16 50 1000
    (by norm_num [mango_engine, mango_engine_at])

/-- C8 counterexample: with the mango targets and the spray cooldown elapsed,
`make_decision (9.5) 88` does not return EVAPORATIVE: 9.5 °C is below
`temp_min = 10.0`, which is assessed "critically low" with urgency 9, and the
urgency ≥ 8 branch fires first. -/
theorem mango_decision_not_evaporative :
    (make_decision mango_engine (19/2) 88 1000).1.mode ≠
      CoolingMode.EVAPORATIVE := by
  simp [make_decision, add_reading, push_bounded, calculate_rate_of_change,
    assess_temperature, assess_humidity, can_spray_now, rate_above,
    mango_engine, mango_engine_at]
  norm_num
  decide

/-- C8 (amended): with the mango targets and the spray cooldown elapsed,
`make_decision (9.5) 88` returns mode CHILLER with pump and chiller on,
dehumidifier off and priority 9: temperature 9.5 °C is below the mango
`temp_min = 10.0` ("critically low", urgency 9), which triggers the
urgency ≥ 8 chiller branch since humidity 88 is below `humidity_max = 90`. -/
theorem mango_decision_chiller :
    (make_decision mango_engine (19/2) 88 1000).1 =
      { mode := CoolingMode.CHILLER, pump := true, chiller := true,
        dehumidifier := false, priority := 9, timestamp := 1000 } := by
  simp [make_decision, add_reading, push_bounded, calculate_rate_of_change,
    assess_temperature, assess_humidity, can_spray_now, rate_above,
    mango_engine, mango_engine_at]
  norm_num

/-- C7: on a strictly rising temperature series (10 °C at t = 0 s, 20 °C at
t = 30 s, both inside the 60 s window at now = 30), the true linear rate is
+20 °C/min, but `calculate_rate_of_change` returns −20 °C/min: it collects
the window newest-first yet subtracts `vals[0]` (the newest) from `vals[-1]`
(the oldest), negating the slope. -/
theorem rate_of_change_sign_flipped :
    calculate_rate_of_change rising_engine rising_engine.temp_history 60 30 =
      some (-20) ∧ (-20 : ℚ) < 0 ∧ (10 : ℚ) < 20 := by
  refine ⟨?_, by norm_num, by norm_num⟩
  simp [calculate_rate_of_change, rising_engine, mango_engine, mango_engine_at,
    list_max, list_min]
  norm_num

theorem sum_mode_durations_update (f : CoolingMode → ℚ) (m : CoolingMode) (x : ℚ) :
    sum_mode_durations (fun k => if k = m then f k + x else f k) =
      sum_mode_durations f + x := by
  cases m <;> simp [sum_mode_durations] <;> ring

theorem execute_decision_accounting (e : Engine) (d : ControlDecision) (t : ℚ) :
    sum_mode_durations (execute_decision e d t).mode_durations -
      (execute_decision e d t).last_mode_change =
      sum_mode_durations e.mode_durations - e.last_mode_change := by
  unfold execute_decision
  by_cases h : e.current_mode ≠ d.mode
  · simp [h, sum_mode_durations_update]
    ring
  · simp [h]

/-- C10: at any sampling time and after any sequence of `execute_decision`
calls on a freshly constructed engine (all per-mode counters zero and the
mode-change timestamp equal to the construction time `t0`), the sum of the
per-mode duration counters plus the open interval of the current mode equals
the wall-clock time elapsed since construction. -/
theorem mode_duration_accounting (e : Engine) (t0 : ℚ)
    (hd : e.mode_durations = fun _ => 0) (hl : e.last_mode_change = t0)
    (steps : List (ControlDecision × ℚ)) (now : ℚ) :
    sum_mode_durations (run_execs e steps).mode_durations +
      (now - (run_execs e steps).last_mode_change) = now - t0 := by
  have key : ∀ (steps : List (ControlDecision × ℚ)) (e : Engine),
      sum_mode_durations (run_execs e steps).mode_durations -
        (run_execs e steps).last_mode_change =
        sum_mode_durations e.mode_durations - e.last_mode_change := by
    intro steps
    induction steps with
    | nil => intro e; simp [run_execs]
    | cons s rest ih =>
        intro e
        have h1 := execute_decision_accounting e s.1 s.2
        have h2 := ih (execute_decision e s.1 s.2)
        simp only [run_execs, List.foldl_cons] at h2 ⊢
        rw [h2, h1]
  have h := key steps e
  rw [hd, hl] at h
  have hz : sum_mode_durations (fun _ => 0) = 0 := by simp [sum_mode_durations]
  rw [hz] at h
  linarith

/-- C10 witness: the accounting law sampled at time 100 after two decisions
(a mode change to CHILLER at time 10 and back to IDLE at time 25) on the
mango engine constructed at time 0. -/
theorem mode_duration_accounting_witness :
    sum_mode_durations (run_execs mango_engine
        [(chill_decision, 10), (idle_decision, 25)]).mode_durations +
      (100 - (run_execs mango_engine
        [(chill_decision, 10), (idle_decision, 25)]).last_mode_change) =
      100 - 0 :=
  mode_duration_accounting mango_engine 0 rfl rfl
    [(chill_decision, 10), (idle_decision, 25)] 100

theorem foldl_max_le_self (xs : List ℚ) : ∀ a : ℚ, a ≤ xs.foldl max a := by
  induction xs with
  | nil => intro a; simp
  | cons y ys ih =>
      intro a
      have h1 : a ≤ max a y := le_max_left a y
      have h2 := ih (max a y)
      simpa [List.foldl_cons] using le_trans h1 h2

theorem mem_le_foldl_max (xs : List ℚ) : ∀ (a x : ℚ), x ∈ xs → x ≤ xs.foldl max a := by
  induction xs with
  | nil => intro a x hx; simp at hx
  | cons y ys ih =>
      intro a x hx
      rcases List.mem_cons.mp hx with rfl | hx2
      · have h1 : x ≤ max a x := le_max_right a x
        have h2 := foldl_max_le_self ys (max a x)
        simpa [List.foldl_cons] using le_trans h1 h2
      · simpa [List.foldl_cons] using ih (max a y) x hx2

theorem foldl_max_le (xs : List ℚ) :
    ∀ (a B : ℚ), a ≤ B → (∀ x ∈ xs, x ≤ B) → xs.foldl max a ≤ B := by
  induction xs with
  | nil => intro a B ha _; simpa using ha
  | cons y ys ih =>
      intro a B ha h
      have hy : y ≤ B := h y (List.mem_cons_self y ys)
      have hm : max a y ≤ B := max_le ha hy
      simpa [List.foldl_cons] using
        ih (max a y) B hm (fun x hx => h x (List.mem_cons_of_mem y hx))

theorem le_list_max (l : List ℚ) (x : ℚ) (hx : x ∈ l) : x ≤ list_max l := by
  cases l with
  | nil => simp at hx
  | cons a as =>
      rcases List.mem_cons.mp hx with rfl | h
      · simpa [list_max] using foldl_max_le_self as x
      · simpa [list_max] using mem_le_foldl_max as a x h

theorem list_max_le (l : List ℚ) (B : ℚ) (hne : l ≠ []) (h : ∀ x ∈ l, x ≤ B) :
    list_max l ≤ B := by
  cases l with
  | nil => exact absurd rfl hne
  | cons a as =>
      simpa [list_max] using foldl_max_le as a B (h a (List.mem_cons_self a as))
        (fun x hx => h x (List.mem_cons_of_mem a hx))

theorem foldl_min_le_self (xs : List ℚ) : ∀ a : ℚ, xs.foldl min a ≤ a := by
  induction xs with
  | nil => intro a; simp
  | cons y ys ih =>
      intro a
      have h1 : min a y ≤ a := min_le_left a y
      have h2 := ih (min a y)
      simpa [List.foldl_cons] using le_trans h2 h1

theorem foldl_min_le_mem (xs : List ℚ) : ∀ (a x : ℚ), x ∈ xs → xs.foldl min a ≤ x := by
  induction xs with
  | nil => intro a x hx; simp at hx
  | cons y ys ih =>
      intro a x hx
      rcases List.mem_cons.mp hx with rfl | hx2
      · have h1 : min a x ≤ x := min_le_right a x
        have h2 := foldl_min_le_self ys (min a x)
        simpa [List.foldl_cons] using le_trans h2 h1
      · simpa [List.foldl_cons] using ih (min a y) x hx2

theorem le_foldl_min (xs : List ℚ) :
    ∀ (a B : ℚ), B ≤ a → (∀ x ∈ xs, B ≤ x) → B ≤ xs.foldl min a := by
  induction xs with
  | nil => intro a B ha _; simpa using ha
  | cons y ys ih =>
      intro a B ha h
      have hy : B ≤ y := h y (List.mem_cons_self y ys)
      have hm : B ≤ min a y := le_min ha hy
      simpa [List.foldl_cons] using
        ih (min a y) B hm (fun x hx => h x (List.mem_cons_of_mem y hx))

theorem list_min_le (l : List ℚ) (x : ℚ) (hx : x ∈ l) : list_min l ≤ x := by
  cases l with
  | nil => simp at hx
  | cons a as =>
      rcases List.mem_cons.mp hx with rfl | h
      · simpa [list_min] using foldl_min_le_self as x
      · simpa [list_min] using foldl_min_le_mem as a x h

theorem le_list_min (l : List ℚ) (B : ℚ) (hne : l ≠ []) (h : ∀ x ∈ l, B ≤ x) :
    B ≤ list_min l := by
  cases l with
  | nil => exact absurd rfl hne
  | cons a as =>
      simpa [list_min] using le_foldl_min as a B (h a (List.mem_cons_self a as))
        (fun x hx => h x (List.mem_cons_of_mem a hx))

theorem zip_filter_fst_length {α β : Type} (p : α → Bool) :
    ∀ (A : List α) (B : List β), A.length = B.length →
      ((A.zip B).filter (fun pr => p pr.1)).length = (A.filter p).length := by
  intro A
  induction A with
  | nil => intro B _; simp
  | cons a A ih =>
      intro B hB
      cases B with
      | nil => simp at hB
      | cons b B =>
          have hAB : A.length = B.length := by simpa using hB
          cases hpa : p a <;>
            simp [List.zip_cons_cons, List.filter_cons, hpa, ih B hAB]

theorem takeWhile_sublist_filter {α : Type} (p : α → Bool) (l : List α) :
    List.Sublist (l.takeWhile p) (l.filter p) := by
  have h1 : (l.takeWhile p).filter p = l.takeWhile p :=
    List.filter_eq_self.mpr (fun a ha => List.mem_takeWhile_imp ha)
  have h2 := List.Sublist.filter p (List.takeWhile_sublist (p := p) (l := l))
  rwa [h1] at h2

/-- C6: `calculate_rate_of_change` returns `none` (unknown) — in particular
never `some 0` — whenever the series holds fewer than 2 samples, or fewer
than 2 samples of the reading history fall inside the time window, or the
in-window samples span less than one second. -/
theorem rate_insufficient_data (e : Engine) (values : List ℚ) (tw now : ℚ)
    (hlen : values.length = e.reading_history.length)
    (h : values.length < 2 ∨
      (e.reading_history.filter (fun r => now - r.timestamp ≤ tw)).length < 2 ∨
      list_max ((e.reading_history.filter (fun r => now - r.timestamp ≤ tw)).map
          (fun r => r.timestamp)) -
        list_min ((e.reading_history.filter (fun r => now - r.timestamp ≤ tw)).map
          (fun r => r.timestamp)) < 1) :
    calculate_rate_of_change e values tw now = none := by
  by_cases hv : values.length < 2
  · simp only [calculate_rate_of_change]
    rw [if_pos hv]
  · have hzip_len : e.reading_history.reverse.length = values.reverse.length := by
      simp [hlen]
    have hfilter_len :
        ((e.reading_history.reverse.zip values.reverse).filter
          (fun pr => now - pr.1.timestamp ≤ tw)).length =
        (e.reading_history.filter (fun r => now - r.timestamp ≤ tw)).length := by
      have h1 := zip_filter_fst_length
        (fun r : SensorReading => now - r.timestamp ≤ tw)
        e.reading_history.reverse values.reverse hzip_len
      simpa [List.filter_reverse] using h1
    have hcollect_le :
        (((e.reading_history.reverse.zip values.reverse).takeWhile
          (fun pr => now - pr.1.timestamp ≤ tw)).map
          (fun pr => (pr.1.timestamp, pr.2))).length ≤
        (e.reading_history.filter (fun r => now - r.timestamp ≤ tw)).length := by
      have hs := takeWhile_sublist_filter
        (fun pr : SensorReading × ℚ => now - pr.1.timestamp ≤ tw)
        (e.reading_history.reverse.zip values.reverse)
      have h2 := hs.length_le
      calc (((e.reading_history.reverse.zip values.reverse).takeWhile
            (fun pr => now - pr.1.timestamp ≤ tw)).map
            (fun pr => (pr.1.timestamp, pr.2))).length
          = ((e.reading_history.reverse.zip values.reverse).takeWhile
            (fun pr => now - pr.1.timestamp ≤ tw)).length := by simp
        _ ≤ ((e.reading_history.reverse.zip values.reverse).filter
            (fun pr => now - pr.1.timestamp ≤ tw)).length := h2
        _ = (e.reading_history.filter (fun r => now - r.timestamp ≤ tw)).length :=
            hfilter_len
    rcases h with h | h | hspan
    · exact absurd h hv
    · have hrec : (((e.reading_history.reverse.zip values.reverse).takeWhile
          (fun pr => now - pr.1.timestamp ≤ tw)).map
          (fun pr => (pr.1.timestamp, pr.2))).length < 2 :=
        lt_of_le_of_lt hcollect_le h
      simp only [calculate_rate_of_change]
      rw [if_neg hv, if_pos hrec]
    · by_cases hrec : (((e.reading_history.reverse.zip values.reverse).takeWhile
          (fun pr => now - pr.1.timestamp ≤ tw)).map
          (fun pr => (pr.1.timestamp, pr.2))).length < 2
      · simp only [calculate_rate_of_change]
        rw [if_neg hv, if_pos hrec]
      · have htl_len : 2 ≤ ((e.reading_history.reverse.zip values.reverse).takeWhile
            (fun pr => now - pr.1.timestamp ≤ tw)).length := by
          simpa using not_lt.mp hrec
        have hsub : ∀ x ∈ ((e.reading_history.reverse.zip values.reverse).takeWhile
              (fun pr => now - pr.1.timestamp ≤ tw)).map (fun pr => pr.1.timestamp),
            x ∈ (e.reading_history.filter (fun r => now - r.timestamp ≤ tw)).map
              (fun r => r.timestamp) := by
          intro x hx
          obtain ⟨pr, hpr, rfl⟩ := List.mem_map.mp hx
          obtain ⟨r, v⟩ := pr
          have hq := List.mem_takeWhile_imp hpr
          have hmem : (r, v) ∈ e.reading_history.reverse.zip values.reverse :=
            (List.takeWhile_sublist _).subset hpr
          have hr : r ∈ e.reading_history :=
            List.mem_reverse.mp (List.of_mem_zip hmem).1
          have hfil : r ∈ e.reading_history.filter
              (fun r => now - r.timestamp ≤ tw) :=
            List.mem_filter.mpr ⟨hr, hq⟩
          exact List.mem_map.mpr ⟨r, hfil, rfl⟩
        have hne : ((e.reading_history.reverse.zip values.reverse).takeWhile
            (fun pr => now - pr.1.timestamp ≤ tw)).map (fun pr => pr.1.timestamp) ≠
            [] := by
          apply List.ne_nil_of_length_pos
          simp only [List.length_map]
          omega
        have hmax : list_max (((e.reading_history.reverse.zip values.reverse).takeWhile
              (fun pr => now - pr.1.timestamp ≤ tw)).map (fun pr => pr.1.timestamp)) ≤
            list_max ((e.reading_history.filter
              (fun r => now - r.timestamp ≤ tw)).map (fun r => r.timestamp)) :=
          list_max_le _ _ hne (fun x hx => le_list_max _ x (hsub x hx))
        have hmin : list_min ((e.reading_history.filter
              (fun r => now - r.timestamp ≤ tw)).map (fun r => r.timestamp)) ≤
            list_min (((e.reading_history.reverse.zip values.reverse).takeWhile
              (fun pr => now - pr.1.timestamp ≤ tw)).map (fun pr => pr.1.timestamp)) :=
          le_list_min _ _ hne (fun x hx => list_min_le _ x (hsub x hx))
        have hmapmap : ((((e.reading_history.reverse.zip values.reverse).takeWhile
              (fun pr => now - pr.1.timestamp ≤ tw)).map
              (fun pr => (pr.1.timestamp, pr.2))).map Prod.fst) =
            ((e.reading_history.reverse.zip values.reverse).takeWhile
              (fun pr => now - pr.1.timestamp ≤ tw)).map (fun pr => pr.1.timestamp) := by
          simp [List.map_map]
        have hrange : list_max ((((e.reading_history.reverse.zip values.reverse).takeWhile
              (fun pr => now - pr.1.timestamp ≤ tw)).map
              (fun pr => (pr.1.timestamp, pr.2))).map Prod.fst) -
            list_min ((((e.reading_history.reverse.zip values.reverse).takeWhile
              (fun pr => now - pr.1.timestamp ≤ tw)).map
              (fun pr => (pr.1.timestamp, pr.2))).map Prod.fst) < 1 := by
          rw [hmapmap]
          linarith
        simp only [calculate_rate_of_change]
        rw [if_neg hv, if_neg hrec, if_pos hrange]

/-- C6 witness: the empty history (fewer than 2 samples) yields `none`. -/
theorem rate_insufficient_data_witness :
    calculate_rate_of_change mango_engine [] 60 100 = none :=
  rate_insufficient_data mango_engine [] 60 100
    (by simp [mango_engine, mango_engine_at]) (Or.inl (by norm_num))
